import Mathlib

/-!
Verification of the stopwatch core of invertime/nixie (src/src/ui/stopwatch.rs).

Shallow embedding conventions:
* Wall-clock instants and durations are rational numbers of seconds; every
  operation that reads the clock takes the current instant `now : ℚ` as an
  explicit argument (the Rust code reads it implicitly through `Instant::now`).
* The f64 lap durations of the Rust code are modelled as exact rationals.
* Rust i64 division and remainder truncate toward zero, so the display
  arithmetic uses `Int.tdiv` and `Int.tmod`.
* GTK side effects (labels, colors, sensitivity, CSS classes) are plain record
  fields; the widgets of the .ui template are not modelled beyond those fields.
* The `unimplemented!()` arm of `handle_on_clear_btn_click` is a panic, so the
  handler returns `Option`, `none` meaning the panic.
-/

/-- The three-valued state enum of stopwatch.rs (initial value `Stopped`). -/
inductive State where
  | Stopped
  | Reset
  | Running
deriving DecidableEq

/-- The accent colors used by the handlers (he::Colors). -/
inductive Colors where
  | Yellow
  | Purple
  | Red
deriving DecidableEq

/-- A lap record (crate::lap::StopwatchLap): split duration in seconds and a
1-based sequence index. -/
structure StopwatchLap where
  duration : ℚ
  index : ℤ
deriving DecidableEq

/-- Modelled from the spec: the timer of the external `stopwatch` crate, which
is not under src/. Spec section 4.1: attributes `accumulated` (time accrued
while previously running) and `started_at` (set while running, absent
otherwise). -/
structure Stopwatch where
  accumulated : ℚ
  started_at : Option ℚ
deriving DecidableEq

/-- Modelled from the spec: a freshly created timer is zeroed and not running. -/
def Stopwatch.new : Stopwatch := ⟨0, none⟩

/-- Modelled from the spec: `start()` records the current instant as the
running-start point; idempotent no-op if already running. -/
def Stopwatch.start (now : ℚ) (sw : Stopwatch) : Stopwatch :=
  match sw.started_at with
  | some _ => sw
  | none => { sw with started_at := some now }

/-- Modelled from the spec: `stop()` adds `now - started_at` to `accumulated`
and clears the running-start point; no-op if not running. -/
def Stopwatch.stop (now : ℚ) (sw : Stopwatch) : Stopwatch :=
  match sw.started_at with
  | some t => { accumulated := sw.accumulated + (now - t), started_at := none }
  | none => sw

/-- Modelled from the spec: `reset()` zeroes `accumulated` and clears the
running-start point regardless of current state. -/
def Stopwatch.reset (_sw : Stopwatch) : Stopwatch := ⟨0, none⟩

/-- Modelled from the spec: `elapsed()` returns `accumulated + (now -
started_at)` if running, else `accumulated`. -/
def Stopwatch.elapsed (now : ℚ) (sw : Stopwatch) : ℚ :=
  match sw.started_at with
  | some t => sw.accumulated + (now - t)
  | none => sw.accumulated

/-- The mutable fields of imp::StopwatchPage together with the observable
widget state its handlers mutate. The three `css_*` booleans model membership
of the three style classes on `time_container`. `laps` lists the ListStore
front first. -/
structure StopwatchPage where
  hours_label : String
  minutes_label : String
  seconds_label : String
  miliseconds_label : String
  start_btn_label : String
  start_btn_color : Colors
  clear_btn_label : String
  clear_btn_sensitive : Bool
  clear_btn_color : Colors
  css_running : Bool
  css_paused : Bool
  css_stopped : Bool
  timer : Stopwatch
  state : State
  laps : List StopwatchLap
  current_lap : ℤ
deriving DecidableEq

/-- The Default impl of imp::StopwatchPage: zeroed timer, state `Stopped`,
empty ListStore, lap counter 0. Widget fields start from template defaults,
taken here as fixed neutral values (no claim depends on them). -/
def initialPage : StopwatchPage :=
  { hours_label := ""
  , minutes_label := ""
  , seconds_label := ""
  , miliseconds_label := ""
  , start_btn_label := ""
  , start_btn_color := Colors.Purple
  , clear_btn_label := ""
  , clear_btn_sensitive := true
  , clear_btn_color := Colors.Purple
  , css_running := false
  , css_paused := false
  , css_stopped := false
  , timer := Stopwatch.new
  , state := State.Stopped
  , laps := []
  , current_lap := 0 }

/-- stopwatch.rs `fn start`: start the timer, go to Running, set the button
labels and colors, and swap the container style class to running. -/
def StopwatchPage.start (now : ℚ) (p : StopwatchPage) : StopwatchPage :=
  { p with
    timer := p.timer.start now
    state := State.Running
    start_btn_label := "Pause"
    start_btn_color := Colors.Yellow
    clear_btn_label := "Lap"
    clear_btn_sensitive := true
    clear_btn_color := Colors.Purple
    css_running := true
    css_paused := false
    css_stopped := false }

/-- stopwatch.rs `fn stop`: stop the timer, go to Stopped, set the button
labels and colors, and swap the container style class to paused. -/
def StopwatchPage.stop (now : ℚ) (p : StopwatchPage) : StopwatchPage :=
  { p with
    timer := p.timer.stop now
    state := State.Stopped
    start_btn_label := "Resume"
    start_btn_color := Colors.Purple
    clear_btn_label := "Clear"
    clear_btn_sensitive := true
    clear_btn_color := Colors.Red
    css_running := false
    css_paused := true
    css_stopped := false }

/-- stopwatch.rs `fn clear`: reset the timer, go to Reset, set the button
labels and colors, disable the clear button, and swap the container style
class to stopped. The laps ListStore and current_lap are not touched. -/
def StopwatchPage.clear (p : StopwatchPage) : StopwatchPage :=
  { p with
    timer := p.timer.reset
    state := State.Reset
    start_btn_label := "Start"
    start_btn_color := Colors.Purple
    clear_btn_label := "Lap"
    clear_btn_sensitive := false
    clear_btn_color := Colors.Purple
    css_running := false
    css_paused := false
    css_stopped := true }

/-- stopwatch.rs `fn total_laps_duration`: sum of the duration of every lap in
the ListStore. -/
def StopwatchPage.total_laps_duration (p : StopwatchPage) : ℚ :=
  (p.laps.map StopwatchLap.duration).sum

/-- stopwatch.rs `fn lap`: increment current_lap, read the elapsed time in
seconds, compute the split duration against the existing total, and insert the
new lap at position 0 (the front). -/
def StopwatchPage.lap (now : ℚ) (p : StopwatchPage) : StopwatchPage :=
  let cl := p.current_lap + 1
  let time := p.timer.elapsed now
  let duration := time - p.total_laps_duration
  { p with
    current_lap := cl
    laps := { duration := duration, index := cl } :: p.laps }

/-- Total elapsed milliseconds as chrono sees them: the std Duration converted
to a chrono Duration, whose num_milliseconds is the whole number of
milliseconds (Rust i64, truncation toward zero; the real value is
non-negative, where floor and truncation agree). -/
def StopwatchPage.elapsed_ms (now : ℚ) (p : StopwatchPage) : ℤ :=
  Int.floor (p.timer.elapsed now * 1000)

/-- The left-to-right mark appended to the time labels. -/
def lrm : String := "\u200E"

/-- stopwatch.rs `fn update_time`: recompute the four time labels from the
timer. chrono num_hours, num_minutes and num_seconds are the total whole
hours, minutes and seconds of the duration; `ms` is one decimal digit,
`(num_milliseconds / 100) % 10` with i64 arithmetic. -/
def StopwatchPage.update_time (now : ℚ) (p : StopwatchPage) : StopwatchPage :=
  let total_ms := p.elapsed_ms now
  let ms := Int.tmod (Int.tdiv total_ms 100) 10
  { p with
    hours_label := toString (Int.tdiv total_ms 3600000) ++ lrm
    minutes_label := toString (Int.tdiv total_ms 60000) ++ lrm
    seconds_label := toString (Int.tdiv total_ms 1000) ++ lrm
    miliseconds_label := toString ms }

/-- stopwatch.rs `fn handle_on_start_btn_click` (the primary action): Reset
and Stopped start, Running stops. -/
def StopwatchPage.handle_on_start_btn_click (now : ℚ) (p : StopwatchPage) :
    StopwatchPage :=
  match p.state with
  | State.Reset => p.start now
  | State.Stopped => p.start now
  | State.Running => p.stop now

/-- stopwatch.rs `fn handle_on_clear_btn_click` (the secondary action):
Stopped clears, Running records a lap, and the remaining state (Reset) falls
into the `unimplemented!()` arm, which panics: modelled as `none`. -/
def StopwatchPage.handle_on_clear_btn_click (now : ℚ) (p : StopwatchPage) :
    Option StopwatchPage :=
  match p.state with
  | State.Stopped => some p.clear
  | State.Running => some (p.lap now)
  | State.Reset => none

/-- The body of the periodic callback installed in `constructed`: update the
time labels when the state is Running or Reset, do nothing when Stopped. -/
def StopwatchPage.tick (now : ℚ) (p : StopwatchPage) : StopwatchPage :=
  match p.state with
  | State.Running => p.update_time now
  | State.Reset => p.update_time now
  | State.Stopped => p

/-- The three entry points the event loop can fire: the two button handlers
and the periodic display tick. -/
inductive UiAct where
  | primary
  | secondary
  | tick
deriving DecidableEq

/-- One event-loop dispatch at instant `now`; `none` when the dispatched
handler panics. -/
def stepUiAct (now : ℚ) (a : UiAct) (p : StopwatchPage) :
    Option StopwatchPage :=
  match a with
  | UiAct.primary => some (p.handle_on_start_btn_click now)
  | UiAct.secondary => p.handle_on_clear_btn_click now
  | UiAct.tick => some (p.tick now)

/-- Run a timed action list from a page, failing if any handler panics. -/
def run (p : StopwatchPage) : List (ℚ × UiAct) → Option StopwatchPage
  | [] => some p
  | (t, a) :: rest =>
    match stepUiAct t a p with
    | some q => run q rest
    | none => none

/-- The business-state observables of a page: state, ledger, lap counter. -/
def pageObs (p : StopwatchPage) : State × List StopwatchLap × ℤ :=
  (p.state, p.laps, p.current_lap)

/-- Pages reachable from the freshly constructed page by event-loop dispatches
at non-decreasing instants, starting at instant 0. -/
inductive Reaches : ℚ → StopwatchPage → Prop where
  | init : Reaches 0 initialPage
  | step {t u : ℚ} {a : UiAct} {p q : StopwatchPage} :
      Reaches t p → t ≤ u → stepUiAct u a p = some q → Reaches u q

/-- Reachability along traces that never fire the clear branch (no secondary
action is dispatched while the state is Stopped). -/
inductive ReachesNC : ℚ → StopwatchPage → Prop where
  | init : ReachesNC 0 initialPage
  | step {t u : ℚ} {a : UiAct} {p q : StopwatchPage} :
      ReachesNC t p → t ≤ u →
      (a = UiAct.secondary → p.state ≠ State.Stopped) →
      stepUiAct u a p = some q → ReachesNC u q

/-! Helper lemmas about the timer and the frame of each operation. -/

theorem Stopwatch.elapsed_mono (sw : Stopwatch) {t u : ℚ} (h : t ≤ u) :
    sw.elapsed t ≤ sw.elapsed u := by
  cases hs : sw.started_at with
  | none => simp [Stopwatch.elapsed, hs]
  | some a => simp only [Stopwatch.elapsed, hs]; linarith

theorem Stopwatch.elapsed_start_self (sw : Stopwatch) (t : ℚ) :
    (sw.start t).elapsed t = sw.elapsed t := by
  cases hs : sw.started_at <;>
    simp [Stopwatch.start, Stopwatch.elapsed, hs]

theorem Stopwatch.elapsed_stop_any (sw : Stopwatch) (t u : ℚ) :
    (sw.stop t).elapsed u = sw.elapsed t := by
  cases hs : sw.started_at <;>
    simp [Stopwatch.stop, Stopwatch.elapsed, hs]

theorem Stopwatch.elapsed_reset (sw : Stopwatch) (u : ℚ) :
    sw.reset.elapsed u = 0 := rfl

theorem StopwatchPage.total_lap (p : StopwatchPage) (now : ℚ) :
    (p.lap now).total_laps_duration = p.timer.elapsed now := by
  simp only [StopwatchPage.lap, StopwatchPage.total_laps_duration,
    List.map_cons, List.sum_cons]
  ring

theorem StopwatchPage.lap_frame (p : StopwatchPage) (now : ℚ) :
    (p.lap now).timer = p.timer ∧ (p.lap now).state = p.state ∧
    (p.lap now).laps =
      { duration := p.timer.elapsed now - p.total_laps_duration,
        index := p.current_lap + 1 } :: p.laps ∧
    (p.lap now).current_lap = p.current_lap + 1 :=
  ⟨rfl, rfl, rfl, rfl⟩

theorem StopwatchPage.update_time_frame (p : StopwatchPage) (now : ℚ) :
    (p.update_time now).timer = p.timer ∧
    (p.update_time now).state = p.state ∧
    (p.update_time now).laps = p.laps ∧
    (p.update_time now).current_lap = p.current_lap :=
  ⟨rfl, rfl, rfl, rfl⟩

theorem StopwatchPage.tick_frame (p : StopwatchPage) (now : ℚ) :
    (p.tick now).timer = p.timer ∧
    (p.tick now).state = p.state ∧
    (p.tick now).laps = p.laps ∧
    (p.tick now).current_lap = p.current_lap := by
  cases hs : p.state <;>
    simp [StopwatchPage.tick, hs, StopwatchPage.update_time,
      StopwatchPage.elapsed_ms]

/-! Claim theorems. -/

/-- C9: invoking the primary action from `Stopped` and from `Reset` runs the
same `start` routine, so the resulting pages (state, timer, presentation) are
identical. -/
theorem c9_stopped_reset_primary_equiv (now : ℚ) (p : StopwatchPage) :
    StopwatchPage.handle_on_start_btn_click now { p with state := State.Stopped } =
      StopwatchPage.handle_on_start_btn_click now { p with state := State.Reset } ∧
    StopwatchPage.handle_on_start_btn_click now { p with state := State.Stopped } =
      StopwatchPage.start now { p with state := State.Stopped } :=
  ⟨rfl, rfl⟩

/-- C7: the periodic callback recomputes the time labels exactly when the
state is Running or Reset, and leaves the page untouched when Stopped. -/
theorem c7_tick_gating (now : ℚ) (p : StopwatchPage) :
    ((p.state = State.Running ∨ p.state = State.Reset) →
      p.tick now = p.update_time now) ∧
    (p.state = State.Stopped → p.tick now = p) := by
  constructor
  · rintro (hs | hs) <;> simp [StopwatchPage.tick, hs]
  · intro hs; simp [StopwatchPage.tick, hs]

/-- Witness for c7_tick_gating at the initial page, whose state is Stopped. -/
theorem c7_witness : initialPage.tick 5 = initialPage :=
  (c7_tick_gating 5 initialPage).2 rfl

/-- C8: update_time renders the sub-second digit as
`(num_milliseconds / 100) % 10` with i64 truncating arithmetic, and for the
non-negative elapsed values the real timer produces this is a single decimal
digit. -/
theorem c8_decisecond_digit (now : ℚ) (p : StopwatchPage) :
    (p.update_time now).miliseconds_label =
      toString (Int.tmod (Int.tdiv (p.elapsed_ms now) 100) 10) ∧
    (0 ≤ p.timer.elapsed now →
      0 ≤ Int.tmod (Int.tdiv (p.elapsed_ms now) 100) 10 ∧
      Int.tmod (Int.tdiv (p.elapsed_ms now) 100) 10 < 10) := by
  refine ⟨rfl, fun h => ?_⟩
  have hms : 0 ≤ p.elapsed_ms now := by
    have : (0 : ℚ) ≤ p.timer.elapsed now * 1000 := by positivity
    exact Int.floor_nonneg.mpr this
  have h1 : 0 ≤ Int.tdiv (p.elapsed_ms now) 100 :=
    Int.tdiv_nonneg hms (by norm_num)
  rw [Int.tmod_eq_emod h1 (by norm_num)]
  exact ⟨Int.emod_nonneg _ (by norm_num), Int.emod_lt_of_pos _ (by norm_num)⟩

/-- Witness for c8_decisecond_digit: a page started at instant 0 and read at
instant 1543/1000 has elapsed 1.543 s and displays the decisecond digit 5. -/
theorem c8_witness :
    (0 : ℚ) ≤ (initialPage.start 0).timer.elapsed (1543 / 1000) ∧
    ((initialPage.start 0).update_time (1543 / 1000)).miliseconds_label =
      toString (Int.tmod (Int.tdiv ((initialPage.start 0).elapsed_ms (1543 / 1000)) 100) 10) ∧
    0 ≤ Int.tmod (Int.tdiv ((initialPage.start 0).elapsed_ms (1543 / 1000)) 100) 10 := by
  have h : (0 : ℚ) ≤ (initialPage.start 0).timer.elapsed (1543 / 1000) := by
    norm_num [initialPage, StopwatchPage.start, Stopwatch.new,
      Stopwatch.start, Stopwatch.elapsed]
  have hc := c8_decisecond_digit (1543 / 1000) (initialPage.start 0)
  exact ⟨h, hc.1, (hc.2 h).1⟩

/-- C4: the secondary action while Running records a lap whose duration is the
current elapsed seconds minus the sum of the existing lap durations, whose
index is the incremented lap counter, inserted at the front of the ledger. -/
theorem c4_lap_effect (now : ℚ) (p : StopwatchPage)
    (h : p.state = State.Running) :
    p.handle_on_clear_btn_click now =
      some { p with
        current_lap := p.current_lap + 1
        laps := { duration := p.timer.elapsed now - p.total_laps_duration,
                  index := p.current_lap + 1 } :: p.laps } := by
  simp [StopwatchPage.handle_on_clear_btn_click, h, StopwatchPage.lap]

/-- Witness for c4_lap_effect: one lap recorded at instant 1 on a page
started at instant 0 has duration 1 and index 1. -/
theorem c4_witness :
    (initialPage.start 0).handle_on_clear_btn_click 1 =
      some { initialPage.start 0 with
        current_lap := 1
        laps := [{ duration := (initialPage.start 0).timer.elapsed 1 -
                     (initialPage.start 0).total_laps_duration,
                   index := 1 }] } :=
  c4_lap_effect 1 (initialPage.start 0) rfl

/-- C5: the primary action follows the transition table: Reset and Stopped go
to Running and start the timer; Running goes to Stopped, stops the timer, and
the stopped timer reports the same elapsed value at every later instant. -/
theorem c5_primary_table (now u : ℚ) (p : StopwatchPage) :
    ((p.state = State.Reset ∨ p.state = State.Stopped) →
      p.handle_on_start_btn_click now = p.start now ∧
      (p.handle_on_start_btn_click now).state = State.Running ∧
      (p.handle_on_start_btn_click now).timer = p.timer.start now) ∧
    (p.state = State.Running →
      p.handle_on_start_btn_click now = p.stop now ∧
      (p.handle_on_start_btn_click now).state = State.Stopped ∧
      (p.handle_on_start_btn_click now).timer = p.timer.stop now ∧
      (p.handle_on_start_btn_click now).timer.elapsed u =
        p.timer.elapsed now) := by
  constructor
  · rintro (hs | hs) <;>
      simp [StopwatchPage.handle_on_start_btn_click, hs, StopwatchPage.start]
  · intro hs
    refine ⟨?_, ?_, ?_, ?_⟩ <;>
      simp [StopwatchPage.handle_on_start_btn_click, hs, StopwatchPage.stop,
        Stopwatch.elapsed_stop_any]

/-- Witness for c5_primary_table: from the initial page (Stopped) the primary
action at instant 0 reaches Running, and from there the primary action at
instant 2 reaches Stopped with elapsed frozen at 2 even when read at 7. -/
theorem c5_witness :
    (initialPage.handle_on_start_btn_click 0).state = State.Running ∧
    (((initialPage.start 0).handle_on_start_btn_click 2).timer.elapsed 7 =
      (initialPage.start 0).timer.elapsed 2) := by
  refine ⟨((c5_primary_table 0 0 initialPage).1 (Or.inr rfl)).2.1, ?_⟩
  exact ((c5_primary_table 2 7 (initialPage.start 0)).2 rfl).2.2.2

/-- C6: the secondary action while Running keeps the state Running, leaves the
timer and every existing lap unchanged, and adds exactly one lap at the
front of the ledger. -/
theorem c6_lap_frame_effect (now : ℚ) (p q : StopwatchPage)
    (h : p.state = State.Running)
    (hq : p.handle_on_clear_btn_click now = some q) :
    q.state = State.Running ∧ q.timer = p.timer ∧
    q.laps.tail = p.laps ∧ q.laps.length = p.laps.length + 1 := by
  simp only [StopwatchPage.handle_on_clear_btn_click, h, Option.some.injEq] at hq
  subst hq
  refine ⟨h ▸ rfl, rfl, rfl, ?_⟩
  simp [StopwatchPage.lap]

/-- Witness for c6_lap_frame_effect at a concrete running page with one lap
recorded at instant 1. -/
theorem c6_witness :
    ((initialPage.start 0).lap 1).state = State.Running ∧
    ((initialPage.start 0).lap 1).timer = (initialPage.start 0).timer ∧
    ((initialPage.start 0).lap 1).laps.tail = (initialPage.start 0).laps ∧
    ((initialPage.start 0).lap 1).laps.length =
      (initialPage.start 0).laps.length + 1 :=
  c6_lap_frame_effect 1 (initialPage.start 0) ((initialPage.start 0).lap 1)
    rfl rfl

/-- C1 (amended): the secondary-action handler completes normally from
Stopped and Running, but from Reset it falls into the `unimplemented!()` arm
and panics. -/
theorem c1_secondary_totality (now : ℚ) (p : StopwatchPage) :
    ((p.state = State.Stopped ∨ p.state = State.Running) →
      (p.handle_on_clear_btn_click now).isSome = true) ∧
    (p.state = State.Reset → p.handle_on_clear_btn_click now = none) := by
  constructor
  · rintro (hs | hs) <;> simp [StopwatchPage.handle_on_clear_btn_click, hs]
  · intro hs; simp [StopwatchPage.handle_on_clear_btn_click, hs]

/-- Witness for c1_secondary_totality: the handler succeeds on the initial
(Stopped) page and panics on the page the clear transition produces. -/
theorem c1_witness :
    (initialPage.handle_on_clear_btn_click 0).isSome = true ∧
    initialPage.clear.handle_on_clear_btn_click 0 = none :=
  ⟨(c1_secondary_totality 0 initialPage).1 (Or.inl rfl),
   (c1_secondary_totality 0 initialPage.clear).2 rfl⟩

/-- C1 counterexample: the Reset state is reached by one secondary action from
the initial page, and a second secondary action there panics
(`unimplemented!()`), so the secondary action does not complete normally in
every one of the three states. -/
theorem c1_counterexample :
    run initialPage [(0, UiAct.secondary)] = some initialPage.clear ∧
    initialPage.clear.state = State.Reset ∧
    initialPage.clear.handle_on_clear_btn_click 0 = none :=
  ⟨rfl, rfl, rfl⟩

/-- C2 (amended): the secondary action while Stopped runs clear: the state
becomes Reset and the timer is reset so elapsed is zero at every instant, but
the lap ledger and the current-lap counter are left unchanged, not cleared. -/
theorem c2_clear_effect (now u : ℚ) (p : StopwatchPage)
    (h : p.state = State.Stopped) :
    p.handle_on_clear_btn_click now = some p.clear ∧
    p.clear.state = State.Reset ∧
    p.clear.timer.elapsed u = 0 ∧
    p.clear.laps = p.laps ∧
    p.clear.current_lap = p.current_lap := by
  refine ⟨?_, rfl, rfl, rfl, rfl⟩
  simp [StopwatchPage.handle_on_clear_btn_click, h]

/-- Witness for c2_clear_effect at the initial page, which is Stopped. -/
theorem c2_witness :
    initialPage.handle_on_clear_btn_click 3 = some initialPage.clear ∧
    initialPage.clear.timer.elapsed 9 = 0 :=
  ⟨(c2_clear_effect 3 9 initialPage rfl).1,
   (c2_clear_effect 3 9 initialPage rfl).2.2.1⟩

/-- C2 counterexample: start at 0, lap at 1, pause at 1, then the secondary
action from Stopped (clear) at 1. Afterwards the state is Reset but the
ledger still holds the lap of duration 1 and the lap counter is still 1:
clear removes no laps and does not zero the counter. -/
theorem c2_counterexample :
    (run initialPage
        [(0, UiAct.primary), (1, UiAct.secondary),
         (1, UiAct.primary), (1, UiAct.secondary)]).map pageObs =
      some (State.Reset, [{ duration := 1, index := 1 }], 1) ∧
    ([{ duration := 1, index := 1 }] : List StopwatchLap) ≠ [] ∧
    (1 : ℤ) ≠ 0 := by
  refine ⟨?_, by simp, by norm_num⟩
  norm_num [run, stepUiAct, pageObs, initialPage,
    StopwatchPage.handle_on_start_btn_click,
    StopwatchPage.handle_on_clear_btn_click, StopwatchPage.start,
    StopwatchPage.stop, StopwatchPage.clear, StopwatchPage.lap,
    StopwatchPage.total_laps_duration, Stopwatch.new, Stopwatch.start,
    Stopwatch.stop, Stopwatch.reset, Stopwatch.elapsed]

/-- One clear-free dispatch preserves non-negative lap durations and keeps the
ledger total below the elapsed time. -/
theorem stepNC_preserves_ledger {t u : ℚ} {a : UiAct} {p q : StopwatchPage}
    (hle : t ≤ u) (hna : a = UiAct.secondary → p.state ≠ State.Stopped)
    (hstep : stepUiAct u a p = some q)
    (ih1 : ∀ l ∈ p.laps, 0 ≤ l.duration)
    (ih2 : p.total_laps_duration ≤ p.timer.elapsed t) :
    (∀ l ∈ q.laps, 0 ≤ l.duration) ∧
    q.total_laps_duration ≤ q.timer.elapsed u := by
  have h2u : p.total_laps_duration ≤ p.timer.elapsed u :=
    le_trans ih2 (p.timer.elapsed_mono hle)
  cases a with
  | primary =>
    simp only [stepUiAct, Option.some.injEq] at hstep
    subst hstep
    cases hs : p.state with
    | Stopped =>
      have hq : p.handle_on_start_btn_click u = p.start u := by
        simp [StopwatchPage.handle_on_start_btn_click, hs]
      rw [hq]
      refine ⟨ih1, ?_⟩
      show p.total_laps_duration ≤ (p.timer.start u).elapsed u
      rw [Stopwatch.elapsed_start_self]
      exact h2u
    | Reset =>
      have hq : p.handle_on_start_btn_click u = p.start u := by
        simp [StopwatchPage.handle_on_start_btn_click, hs]
      rw [hq]
      refine ⟨ih1, ?_⟩
      show p.total_laps_duration ≤ (p.timer.start u).elapsed u
      rw [Stopwatch.elapsed_start_self]
      exact h2u
    | Running =>
      have hq : p.handle_on_start_btn_click u = p.stop u := by
        simp [StopwatchPage.handle_on_start_btn_click, hs]
      rw [hq]
      refine ⟨ih1, ?_⟩
      show p.total_laps_duration ≤ (p.timer.stop u).elapsed u
      rw [Stopwatch.elapsed_stop_any]
      exact h2u
  | secondary =>
    simp only [stepUiAct] at hstep
    cases hs : p.state with
    | Stopped => exact absurd hs (hna rfl)
    | Reset =>
      rw [StopwatchPage.handle_on_clear_btn_click, hs] at hstep
      simp at hstep
    | Running =>
      rw [StopwatchPage.handle_on_clear_btn_click, hs] at hstep
      simp only [Option.some.injEq] at hstep
      subst hstep
      constructor
      · intro l hl
        rw [(p.lap_frame u).2.2.1] at hl
        rcases List.mem_cons.mp hl with hl | hl
        · subst hl
          simp only []
          linarith
        · exact ih1 l hl
      · rw [p.total_lap u, (p.lap_frame u).1]
  | tick =>
    simp only [stepUiAct, Option.some.injEq] at hstep
    subst hstep
    obtain ⟨htm, -, hlp, -⟩ := p.tick_frame u
    constructor
    · intro l hl
      rw [hlp] at hl
      exact ih1 l hl
    · simp only [StopwatchPage.total_laps_duration, hlp, htm]
      exact h2u

/-- C3 (amended): at the instant a lap is recorded while Running the sum of
all lap durations in the ledger equals (so never exceeds) the elapsed time,
and along every reachable trace that never fires the clear branch every lap
duration is non-negative and the ledger total stays below the elapsed time.
After a clear the first recorded lap can have a negative duration. -/
theorem c3_lap_ledger_invariant :
    (∀ (now : ℚ) (p q : StopwatchPage), p.state = State.Running →
      p.handle_on_clear_btn_click now = some q →
      q.total_laps_duration = p.timer.elapsed now) ∧
    (∀ (t : ℚ) (p : StopwatchPage), ReachesNC t p →
      (∀ l ∈ p.laps, 0 ≤ l.duration) ∧
      p.total_laps_duration ≤ p.timer.elapsed t) := by
  constructor
  · intro now p q hs hq
    rw [StopwatchPage.handle_on_clear_btn_click, hs] at hq
    simp only [Option.some.injEq] at hq
    subst hq
    exact p.total_lap now
  · intro t p h
    induction h with
    | init =>
      constructor
      · intro l hl
        simp [initialPage] at hl
      · simp [initialPage, StopwatchPage.total_laps_duration, Stopwatch.new,
          Stopwatch.elapsed]
    | step h hle hna hstep ih =>
      exact stepNC_preserves_ledger hle hna hstep ih.1 ih.2

/-- Witness for c3_lap_ledger_invariant: the initial page is reachable with no
clear fired, and a lap recorded at instant 1 on a page started at instant 0
makes the ledger total equal the elapsed time. -/
theorem c3_witness :
    ((∀ l ∈ initialPage.laps, 0 ≤ l.duration) ∧
      initialPage.total_laps_duration ≤ initialPage.timer.elapsed 0) ∧
    ((initialPage.start 0).lap 1).total_laps_duration =
      (initialPage.start 0).timer.elapsed 1 :=
  ⟨c3_lap_ledger_invariant.2 0 initialPage ReachesNC.init,
   c3_lap_ledger_invariant.1 1 (initialPage.start 0)
     ((initialPage.start 0).lap 1) rfl rfl⟩

/-- C3 counterexample: start at 0, lap at 10 (duration 10), pause, clear, then
start again at 11 and lap at 12. The clear kept the old lap but zeroed the
timer, so the new lap duration is 1 - 10 = -9, violating duration ≥ 0. -/
theorem c3_counterexample :
    (run initialPage
        [(0, UiAct.primary), (10, UiAct.secondary), (10, UiAct.primary),
         (10, UiAct.secondary), (11, UiAct.primary),
         (12, UiAct.secondary)]).map pageObs =
      some (State.Running,
        [{ duration := -9, index := 2 }, { duration := 10, index := 1 }], 2) ∧
    ((-9 : ℚ) < 0) := by
  refine ⟨?_, by norm_num⟩
  norm_num [run, stepUiAct, pageObs, initialPage,
    StopwatchPage.handle_on_start_btn_click,
    StopwatchPage.handle_on_clear_btn_click, StopwatchPage.start,
    StopwatchPage.stop, StopwatchPage.clear, StopwatchPage.lap,
    StopwatchPage.total_laps_duration, Stopwatch.new, Stopwatch.start,
    Stopwatch.stop, Stopwatch.reset, Stopwatch.elapsed]

/-- One dispatch preserves strictly decreasing lap indices (front to back)
and keeps every index bounded by the current-lap counter. -/
theorem step_preserves_indices {u : ℚ} {a : UiAct} {p q : StopwatchPage}
    (hstep : stepUiAct u a p = some q)
    (ih1 : p.laps.Pairwise (fun l m => m.index < l.index))
    (ih2 : ∀ l ∈ p.laps, l.index ≤ p.current_lap) :
    q.laps.Pairwise (fun l m => m.index < l.index) ∧
    ∀ l ∈ q.laps, l.index ≤ q.current_lap := by
  cases a with
  | primary =>
    simp only [stepUiAct, Option.some.injEq] at hstep
    subst hstep
    cases hs : p.state <;>
      simp only [StopwatchPage.handle_on_start_btn_click, hs] <;>
      exact ⟨ih1, ih2⟩
  | secondary =>
    simp only [stepUiAct] at hstep
    cases hs : p.state with
    | Stopped =>
      rw [StopwatchPage.handle_on_clear_btn_click, hs] at hstep
      simp only [Option.some.injEq] at hstep
      subst hstep
      exact ⟨ih1, ih2⟩
    | Reset =>
      rw [StopwatchPage.handle_on_clear_btn_click, hs] at hstep
      simp at hstep
    | Running =>
      rw [StopwatchPage.handle_on_clear_btn_click, hs] at hstep
      simp only [Option.some.injEq] at hstep
      subst hstep
      rw [(p.lap_frame u).2.2.1]
      constructor
      · rw [List.pairwise_cons]
        refine ⟨fun m hm => ?_, ih1⟩
        have := ih2 m hm
        simp only []
        linarith
      · intro l hl
        rcases List.mem_cons.mp hl with hl | hl
        · subst hl
          simp [StopwatchPage.lap]
        · have := ih2 l hl
          have hcl : ((p.lap u).current_lap) = p.current_lap + 1 :=
            (p.lap_frame u).2.2.2
          rw [hcl]
          linarith
  | tick =>
    simp only [stepUiAct, Option.some.injEq] at hstep
    subst hstep
    obtain ⟨-, -, hlp, hcl⟩ := p.tick_frame u
    rw [hlp, hcl]
    exact ⟨ih1, ih2⟩

/-- C10: no dispatch ever decreases the current-lap counter (a lap while
Running adds exactly one, everything else — clear included — leaves it
unchanged), and along every reachable trace the lap indices strictly decrease
from ledger front to back and are bounded by the counter, so each new lap
index is strictly greater than every index already in the ledger. -/
theorem c10_counter_monotone_indices :
    (∀ (u : ℚ) (a : UiAct) (p q : StopwatchPage),
      stepUiAct u a p = some q →
      p.current_lap ≤ q.current_lap ∧
      (q.current_lap = p.current_lap ∨
        (a = UiAct.secondary ∧ p.state = State.Running ∧
          q.current_lap = p.current_lap + 1))) ∧
    (∀ (t : ℚ) (p : StopwatchPage), Reaches t p →
      p.laps.Pairwise (fun l m => m.index < l.index) ∧
      ∀ l ∈ p.laps, l.index ≤ p.current_lap) := by
  constructor
  · intro u a p q hstep
    cases a with
    | primary =>
      simp only [stepUiAct, Option.some.injEq] at hstep
      subst hstep
      cases hs : p.state <;>
        simp only [StopwatchPage.handle_on_start_btn_click, hs] <;>
        exact ⟨le_refl _, Or.inl rfl⟩
    | secondary =>
      simp only [stepUiAct] at hstep
      cases hs : p.state with
      | Stopped =>
        rw [StopwatchPage.handle_on_clear_btn_click, hs] at hstep
        simp only [Option.some.injEq] at hstep
        subst hstep
        exact ⟨le_refl _, Or.inl rfl⟩
      | Reset =>
        rw [StopwatchPage.handle_on_clear_btn_click, hs] at hstep
        simp at hstep
      | Running =>
        rw [StopwatchPage.handle_on_clear_btn_click, hs] at hstep
        simp only [Option.some.injEq] at hstep
        subst hstep
        rw [(p.lap_frame u).2.2.2]
        exact ⟨by linarith, Or.inr ⟨rfl, rfl, rfl⟩⟩
    | tick =>
      simp only [stepUiAct, Option.some.injEq] at hstep
      subst hstep
      rw [(p.tick_frame u).2.2.2]
      exact ⟨le_refl _, Or.inl rfl⟩
  · intro t p h
    induction h with
    | init =>
      constructor
      · simp [initialPage]
      · intro l hl
        simp [initialPage] at hl
    | step h hle hstep ih =>
      exact step_preserves_indices hstep ih.1 ih.2

/-- Witness for c10_counter_monotone_indices: a concrete primary dispatch
from the initial page does not decrease the counter, and the initial page
satisfies the ledger index invariant. -/
theorem c10_witness :
    (initialPage.current_lap ≤ (initialPage.start 0).current_lap) ∧
    initialPage.laps.Pairwise (fun l m => m.index < l.index) :=
  ⟨(c10_counter_monotone_indices.1 0 UiAct.primary initialPage
      (initialPage.start 0) rfl).1,
   (c10_counter_monotone_indices.2 0 initialPage Reaches.init).1⟩
